import Mathlib

/-!
Shallow embedding of `worldclock` (src/main.rs): a program that reads a TOML
configuration describing a list of clocks (optional display name, optional
IANA time-zone identifier), and prints one table row per clock with the
current time rendered in that clock's zone.

Times are modelled as Unix timestamps (seconds since epoch, `Int`); a time
zone is modelled by its canonical IANA name together with its UTC offset (in
seconds) as a function of the instant.  The host's local zone is an
arbitrary offset function passed as a parameter.
-/

set_option autoImplicit false

namespace Worldclock

/-- Model of the external chrono_tz crate's `Tz` type: the IANA time-zone
database, restricted to the identifiers that appear in this repository's
documentation and spec.  The source's `Tz` newtype wrapper around
`chrono_tz::Tz` exists only to attach a `Deserialize` instance, so it is not
reproduced separately. -/
inductive ChronoTz where
  | europe_berlin
  | america_costa_rica
  | america_new_york
  | utc
deriving DecidableEq, Repr

/-- Canonical string form of a zone, as produced by `chrono_tz::Tz`'s
`Display`/`to_string` (the IANA identifier itself). -/
def ChronoTz.canonicalName : ChronoTz → String
  | .europe_berlin => "Europe/Berlin"
  | .america_costa_rica => "America/Costa_Rica"
  | .america_new_york => "America/New_York"
  | .utc => "UTC"

/-- UTC offset in seconds of the zone at a given instant (Unix timestamp),
per IANA tzdata rules in effect in 2024 (EU DST for Berlin between
2024-03-31 01:00 UTC and 2024-10-27 01:00 UTC; US DST for New York between
2024-03-10 07:00 UTC and 2024-11-03 06:00 UTC; Costa Rica fixed at UTC-6). -/
def ChronoTz.offsetAt : ChronoTz → Int → Int
  | .europe_berlin, t => if 1711846800 ≤ t ∧ t < 1729990800 then 7200 else 3600
  | .america_costa_rica, _ => -21600
  | .america_new_york, t => if 1710054000 ≤ t ∧ t < 1730613600 then -14400 else -18000
  | .utc, _ => 0

/-- `chrono_tz::Tz::from_str`: parse an IANA identifier, `none` when the
string matches no known zone. -/
def ChronoTz.fromStr (s : String) : Option ChronoTz :=
  if s = "Europe/Berlin" then some .europe_berlin
  else if s = "America/Costa_Rica" then some .america_costa_rica
  else if s = "America/New_York" then some .america_new_york
  else if s = "UTC" then some .utc
  else none

/-- The parse-failure message of `chrono_tz::Tz::from_str`, which names the
offending value. -/
def tzErrMsg (s : String) : String := "\x27" ++ s ++ "\x27 is not a valid timezone"

/-- One `[[clocks]]` entry of the configuration (struct `Clock` in the
source): an optional display name and an optional time zone. -/
structure Clock where
  name : Option String
  tz : Option ChronoTz
deriving DecidableEq, Repr

/-- `Clock::default()`: both fields absent. -/
def Clock.default : Clock := ⟨none, none⟩

/-- The deserialized configuration (struct `Config` in the source). -/
structure Config where
  clocks : List Clock
deriving DecidableEq, Repr

/-- One output row of the table: the bold label cell and the formatted time
cell. -/
structure ResolvedRow where
  label : String
  time_text : String
deriving DecidableEq, Repr

/-- Two-digit zero-padded decimal rendering, as produced by chrono's
`%H`/`%M`/`%S` format specifiers for values below 100. -/
def pad2 (n : Nat) : String := ⟨[Nat.digitChar (n / 10), Nat.digitChar (n % 10)]⟩

/-- `local_time.format("%H:%M:%S")`: the wall-clock time of day of a local
timestamp (seconds since epoch shifted by the zone offset), zero-padded
24-hour notation. -/
def fmtHMS (localSecs : Int) : String :=
  let sod := (localSecs % 86400).toNat
  pad2 (sod / 3600) ++ ":" ++ pad2 (sod % 3600 / 60) ++ ":" ++ pad2 (sod % 60)

/-- The `tz_name` variable of the loop body in `print_clocks`: the zone's
canonical string when a zone is configured, the literal "Local" otherwise. -/
def fallbackLabel : Option ChronoTz → String
  | some tz => tz.canonicalName
  | none => "Local"

/-- The `local_time` variable of the loop body in `print_clocks`: the shared
instant converted into the entry's zone (explicit zone when configured, the
host's local zone otherwise), as a naive local timestamp. -/
def localSeconds (time : Int) (localTz : Int → Int) : Option ChronoTz → Int
  | some tz => time + tz.offsetAt time
  | none => time + localTz time

/-- The loop body of `print_clocks` for one entry: label is
`clock.name.unwrap_or(tz_name)`, time text is
`local_time.format("%H:%M:%S")`. -/
def renderRow (time : Int) (localTz : Int → Int) (clock : Clock) : ResolvedRow :=
  { label := clock.name.getD (fallbackLabel clock.tz)
    time_text := fmtHMS (localSeconds time localTz clock.tz) }

/-- `print_clocks`: one row per entry, in input order.  The `Local` zone of
the host is passed explicitly as `localTz`. -/
def print_clocks (clocks : List Clock) (time : Int) (localTz : Int → Int) : List ResolvedRow :=
  clocks.map (renderRow time localTz)

/-- Structured values of the configuration text, as seen by serde through
the toml crate. -/
inductive Toml where
  | str (s : String)
  | int (n : Int)
  | arr (xs : List Toml)
  | table (kvs : List (String × Toml))

/-- `<Tz as Deserialize>::deserialize`: expects a string and parses it via
`ChronoTz.fromStr`; an unknown identifier becomes a custom error carrying
chrono_tz's message. -/
def tzDeserialize (v : Toml) : Except String ChronoTz :=
  match v with
  | .str s =>
    match ChronoTz.fromStr s with
    | some tz => .ok tz
    | none => .error (tzErrMsg s)
  | _ => .error "invalid type: expected a string"

/-- serde-derived `Deserialize` for `Clock`: reads the optional "name" and
"tz" keys of a table; keys other than these are ignored (no
`deny_unknown_fields`). -/
def clockDeserialize (v : Toml) : Except String Clock :=
  match v with
  | .table kvs =>
    match kvs.lookup "name", kvs.lookup "tz" with
    | some (.str n), some tzv => (tzDeserialize tzv).map (fun z => ⟨some n, some z⟩)
    | some (.str n), none => .ok ⟨some n, none⟩
    | none, some tzv => (tzDeserialize tzv).map (fun z => ⟨none, some z⟩)
    | none, none => .ok ⟨none, none⟩
    | some _, _ => .error "invalid type: expected a string for name"
  | _ => .error "invalid type: expected a table"

/-- Element-wise deserialization of the "clocks" sequence; the first failing
element aborts with its error. -/
def clocksDeserialize : List Toml → Except String (List Clock)
  | [] => .ok []
  | v :: vs =>
    match clockDeserialize v with
    | .error e => .error e
    | .ok c =>
      match clocksDeserialize vs with
      | .error e => .error e
      | .ok cs => .ok (c :: cs)

/-- serde-derived `Deserialize` for `Config`: the "clocks" key is an array
of entries; `#[serde(default)]` makes a missing key the empty sequence;
unknown top-level keys are ignored. -/
def configDeserialize (v : Toml) : Except String Config :=
  match v with
  | .table kvs =>
    match kvs.lookup "clocks" with
    | none => .ok ⟨[]⟩
    | some (.arr xs) =>
      match clocksDeserialize xs with
      | .ok cs => .ok ⟨cs⟩
      | .error e => .error e
    | some _ => .error "invalid type: expected an array"
  | _ => .error "invalid type: expected a table"

/-- The post-parse step of `main`: if no clocks are specified, push one
default (local) clock. -/
def withDefaultClock (c : Config) : Config :=
  if c.clocks.isEmpty then ⟨c.clocks ++ [Clock.default]⟩ else c

/-- The pipeline of `main` after the config text is read and the single
instant is captured: deserialize, substitute the default clock, render.  A
deserialization error aborts before any row is produced. -/
def run (v : Toml) (time : Int) (localTz : Int → Int) : Except String (List ResolvedRow) :=
  match configDeserialize v with
  | .ok c => .ok (print_clocks (withDefaultClock c).clocks time localTz)
  | .error e => .error e

/-- The shape `\d\d:\d\d:\d\d` of a rendered time cell: exactly eight
characters, digits except for colons at positions 2 and 5 — hence no date,
no offset, no sub-second part. -/
def isHHMMSS (s : String) : Prop :=
  ∃ h1 h2 m1 m2 s1 s2 : Char,
    s.data = [h1, h2, ':', m1, m2, ':', s1, s2] ∧
    (h1.isDigit && h2.isDigit && m1.isDigit && m2.isDigit && s1.isDigit && s2.isDigit) = true

/-- The scenario configuration of the spec: a local clock, a Berlin clock,
and a named Costa Rica clock. -/
def scenarioToml : Toml :=
  .table [("clocks", .arr
    [ .table [],
      .table [("tz", .str "Europe/Berlin")],
      .table [("name", .str "Costa Rica"), ("tz", .str "America/Costa_Rica")] ])]

/-! ## Helper lemmas -/

theorem data_append (a b : String) : (a ++ b).data = a.data ++ b.data := rfl

theorem digitChar_isDigit (d : Nat) (h : d < 10) : (Nat.digitChar d).isDigit = true := by
  interval_cases d <;> decide

theorem fmtHMS_shape (x : Int) : isHHMMSS (fmtHMS x) := by
  have h0 : (0 : Int) ≤ x % 86400 := Int.emod_nonneg x (by decide)
  have h1 : x % 86400 < 86400 := Int.emod_lt_of_pos x (by decide)
  have hlt : (x % 86400).toNat < 86400 := by omega
  refine ⟨Nat.digitChar ((x % 86400).toNat / 3600 / 10),
          Nat.digitChar ((x % 86400).toNat / 3600 % 10),
          Nat.digitChar ((x % 86400).toNat % 3600 / 60 / 10),
          Nat.digitChar ((x % 86400).toNat % 3600 / 60 % 10),
          Nat.digitChar ((x % 86400).toNat % 60 / 10),
          Nat.digitChar ((x % 86400).toNat % 60 % 10), rfl, ?_⟩
  have b1 : (x % 86400).toNat / 3600 / 10 < 10 := by omega
  have b2 : (x % 86400).toNat / 3600 % 10 < 10 := by omega
  have b3 : (x % 86400).toNat % 3600 / 60 / 10 < 10 := by omega
  have b4 : (x % 86400).toNat % 3600 / 60 % 10 < 10 := by omega
  have b5 : (x % 86400).toNat % 60 / 10 < 10 := by omega
  have b6 : (x % 86400).toNat % 60 % 10 < 10 := by omega
  rw [digitChar_isDigit _ b1, digitChar_isDigit _ b2, digitChar_isDigit _ b3,
      digitChar_isDigit _ b4, digitChar_isDigit _ b5, digitChar_isDigit _ b6]
  rfl

theorem fallbackLabel_ne_empty (z : Option ChronoTz) : fallbackLabel z ≠ "" := by
  cases z with
  | none => decide
  | some tz => cases tz <;> decide

theorem clocksDeserialize_err (pre post : List Toml) (e : Toml) (m : String)
    (hpre : ∀ x ∈ pre, ∃ c, clockDeserialize x = Except.ok c)
    (he : clockDeserialize e = Except.error m) :
    clocksDeserialize (pre ++ e :: post) = Except.error m := by
  induction pre with
  | nil => simp [clocksDeserialize, he]
  | cons x xs ih =>
    obtain ⟨c, hc⟩ := hpre x (by simp)
    have hxs := ih (fun y hy => hpre y (by simp [hy]))
    simp [clocksDeserialize, hc, hxs]

/-! ## Claim theorems -/

/-- Claim C1: when an entry has a `name` field, the rendered label is exactly
that string, even when it is empty; the fallback label is used only when
`name` is absent. -/
theorem name_used_verbatim (n : String) (z : Option ChronoTz) (t : Int) (loc : Int → Int) :
    (renderRow t loc ⟨some n, z⟩).label = n ∧
    (renderRow t loc ⟨some "", z⟩).label = "" ∧
    (renderRow t loc ⟨none, z⟩).label = fallbackLabel z :=
  ⟨rfl, rfl, rfl⟩

/-- Claim C2: with no `name`, the label is the zone\x27s canonical string when a
zone is configured, and the literal "Local" otherwise. -/
theorem fallback_label_correct (z : ChronoTz) (t : Int) (loc : Int → Int) :
    (renderRow t loc ⟨none, some z⟩).label = z.canonicalName ∧
    (renderRow t loc ⟨none, none⟩).label = "Local" :=
  ⟨rfl, rfl⟩

/-- Claim C3: a configuration whose "tz" value matches no known zone fails at
deserialization with the time-zone error, the whole run returns that error
(so no row is rendered), and the message contains the offending value. -/
theorem invalid_tz_fails_at_parse (pre post : List Toml) (s : String) (t : Int)
    (loc : Int → Int)
    (hpre : ∀ x ∈ pre, ∃ c, clockDeserialize x = Except.ok c)
    (hs : ChronoTz.fromStr s = none) :
    configDeserialize (.table [("clocks", .arr (pre ++ .table [("tz", .str s)] :: post))])
      = Except.error (tzErrMsg s) ∧
    run (.table [("clocks", .arr (pre ++ .table [("tz", .str s)] :: post))]) t loc
      = Except.error (tzErrMsg s) ∧
    ∃ p q, tzErrMsg s = p ++ (s ++ q) := by
  have htz : tzDeserialize (.str s) = Except.error (tzErrMsg s) := by
    simp [tzDeserialize, hs]
  have hclock : clockDeserialize (.table [("tz", .str s)]) = Except.error (tzErrMsg s) := by
    show (tzDeserialize (.str s)).map _ = _
    rw [htz]
    rfl
  have hlist := clocksDeserialize_err pre post _ _ hpre hclock
  have hcfg : configDeserialize
      (.table [("clocks", .arr (pre ++ .table [("tz", .str s)] :: post))])
      = Except.error (tzErrMsg s) := by
    show (match clocksDeserialize (pre ++ .table [("tz", .str s)] :: post) with
          | Except.ok cs => Except.ok (⟨cs⟩ : Config)
          | Except.error e => Except.error e)
        = Except.error (tzErrMsg s)
    rw [hlist]
  refine ⟨hcfg, ?_, "\x27", "\x27 is not a valid timezone", rfl⟩
  unfold run
  rw [hcfg]

/-- Claim C4: a table without a "clocks" key deserializes to the empty
sequence; the post-parse step replaces an empty sequence by exactly one
default entry; the resulting run produces exactly one row labeled "Local"
showing the host-local time. -/
theorem missing_clocks_key_defaults (kvs : List (String × Toml)) (t : Int)
    (loc : Int → Int) (h : kvs.lookup "clocks" = none) :
    configDeserialize (.table kvs) = Except.ok ⟨[]⟩ ∧
    withDefaultClock ⟨[]⟩ = ⟨[Clock.default]⟩ ∧
    run (.table kvs) t loc = Except.ok [⟨"Local", fmtHMS (t + loc t)⟩] := by
  have h1 : configDeserialize (.table kvs) = Except.ok ⟨[]⟩ := by
    simp [configDeserialize, h]
  refine ⟨h1, rfl, ?_⟩
  unfold run
  rw [h1]
  rfl

/-- Claim C5: the renderer yields one row per entry with the rows in input
order — position i of the output is the rendering of position i of the
input, for every index and every input length. -/
theorem rows_preserve_order (clocks : List Clock) (t : Int) (loc : Int → Int) :
    (print_clocks clocks t loc).length = clocks.length ∧
    ∀ i : Nat, (print_clocks clocks t loc)[i]? = (clocks[i]?).map (renderRow t loc) := by
  refine ⟨?_, ?_⟩
  · simp [print_clocks]
  · intro i
    simp [print_clocks]

/-- Claim C6: every rendered time text has the exact shape
`\d\d:\d\d:\d\d` — eight characters, zero-padded 24-hour clock, no date,
offset or sub-second part. -/
theorem time_text_format (c : Clock) (t : Int) (loc : Int → Int) :
    isHHMMSS (renderRow t loc c).time_text :=
  fmtHMS_shape _

/-- Claim C7: all rows of one invocation share one instant: two entries with
the same effective time zone render identical time text. -/
theorem same_instant_same_zone (c1 c2 : Clock) (t : Int) (loc : Int → Int)
    (h : c1.tz = c2.tz) :
    (renderRow t loc c1).time_text = (renderRow t loc c2).time_text := by
  simp [renderRow, h]

/-- Claim C8: the spec scenario — a local clock, a Berlin clock, and a named
Costa Rica clock — at instant 2024-01-01T12:00:00Z (Unix 1704110400) yields
exactly the three rows ("Local", host-local), ("Europe/Berlin", "13:00:00"),
("Costa Rica", "06:00:00"), in that order, for any host zone. -/
theorem scenario_output (loc : Int → Int) :
    configDeserialize scenarioToml
      = Except.ok ⟨[⟨none, none⟩, ⟨none, some .europe_berlin⟩,
                    ⟨some "Costa Rica", some .america_costa_rica⟩]⟩ ∧
    run scenarioToml 1704110400 loc
      = Except.ok [⟨"Local", fmtHMS (1704110400 + loc 1704110400)⟩,
                   ⟨"Europe/Berlin", "13:00:00"⟩,
                   ⟨"Costa Rica", "06:00:00"⟩] := by
  have hcfg : configDeserialize scenarioToml
      = Except.ok ⟨[⟨none, none⟩, ⟨none, some .europe_berlin⟩,
                    ⟨some "Costa Rica", some .america_costa_rica⟩]⟩ := rfl
  refine ⟨hcfg, ?_⟩
  have hb : fmtHMS 1704114000 = "13:00:00" := by decide
  have hc : fmtHMS 1704088800 = "06:00:00" := by decide
  unfold run
  rw [hcfg]
  simp [withDefaultClock, print_clocks, renderRow, localSeconds, fallbackLabel,
        ChronoTz.offsetAt, ChronoTz.canonicalName, hb, hc]

/-- Claim C9 (corrected), counterexample: an entry whose `name` is the empty
string renders an empty label, so not every rendered label is non-empty. -/
theorem label_empty_counterexample :
    (renderRow 0 (fun _ => 0) ⟨some "", none⟩).label = "" := rfl

/-- Claim C9 (amended): every rendered label is non-empty unless the entry\x27s
`name` field is explicitly the empty string. -/
theorem label_nonempty_unless_empty_name (c : Clock) (t : Int) (loc : Int → Int)
    (h : c.name ≠ some "") :
    (renderRow t loc c).label ≠ "" := by
  obtain ⟨n, z⟩ := c
  cases n with
  | none =>
    simpa [renderRow] using fallbackLabel_ne_empty z
  | some s =>
    have hs : s ≠ "" := fun hs => h (by rw [hs])
    simpa [renderRow] using hs

/-- Claim C10: unknown keys are ignored — an entry table without "name" and
"tz" keys (whatever other keys it has) deserializes to the empty entry, and
a top-level table without a "clocks" key deserializes to the empty config. -/
theorem unknown_keys_ignored (kvs kvs2 : List (String × Toml))
    (h1 : kvs.lookup "name" = none) (h2 : kvs.lookup "tz" = none)
    (h3 : kvs2.lookup "clocks" = none) :
    clockDeserialize (.table kvs) = Except.ok ⟨none, none⟩ ∧
    configDeserialize (.table kvs2) = Except.ok ⟨[]⟩ := by
  refine ⟨?_, ?_⟩
  · simp [clockDeserialize, h1, h2]
  · simp [configDeserialize, h3]

/-! ## Witnesses for the theorems with hypotheses -/

/-- Witness for C3 at the concrete zone string "Not/AZone". -/
theorem invalid_tz_fails_at_parse_witness :
    ChronoTz.fromStr "Not/AZone" = none ∧
    run (.table [("clocks", .arr [.table [("tz", .str "Not/AZone")]])]) 0 (fun _ => 0)
      = Except.error (tzErrMsg "Not/AZone") := by
  refine ⟨by decide, ?_⟩
  have h := invalid_tz_fails_at_parse [] [] "Not/AZone" 0 (fun _ => 0) (by simp) (by decide)
  simpa using h.2.1

/-- Witness for C4 at the empty table. -/
theorem missing_clocks_key_defaults_witness :
    List.lookup "clocks" ([] : List (String × Toml)) = none ∧
    run (.table []) 0 (fun _ => 0) = Except.ok [⟨"Local", fmtHMS 0⟩] := by
  refine ⟨rfl, ?_⟩
  have h := missing_clocks_key_defaults [] 0 (fun _ => 0) rfl
  simpa using h.2.2

/-- Witness for C7 at two concrete entries with the same (absent) zone. -/
theorem same_instant_same_zone_witness :
    (⟨some "A", none⟩ : Clock).tz = (⟨none, none⟩ : Clock).tz ∧
    (renderRow 0 (fun _ => 0) ⟨some "A", none⟩).time_text
      = (renderRow 0 (fun _ => 0) ⟨none, none⟩).time_text :=
  ⟨rfl, same_instant_same_zone ⟨some "A", none⟩ ⟨none, none⟩ 0 (fun _ => 0) rfl⟩

/-- Witness for the amended C9 at a concrete non-empty name. -/
theorem label_nonempty_unless_empty_name_witness :
    (⟨some "X", none⟩ : Clock).name ≠ some "" ∧
    (renderRow 0 (fun _ => 0) ⟨some "X", none⟩).label ≠ "" :=
  ⟨by decide, label_nonempty_unless_empty_name ⟨some "X", none⟩ 0 (fun _ => 0) (by decide)⟩

/-- Witness for C10 at a misspelled "timezone" key and an unrelated top-level
key. -/
theorem unknown_keys_ignored_witness :
    List.lookup "name" [("timezone", Toml.str "Europe/Berlin")] = none ∧
    List.lookup "tz" [("timezone", Toml.str "Europe/Berlin")] = none ∧
    List.lookup "clocks" [("klocks", Toml.str "x")] = none ∧
    clockDeserialize (.table [("timezone", .str "Europe/Berlin")])
      = Except.ok ⟨none, none⟩ ∧
    configDeserialize (.table [("klocks", .str "x")]) = Except.ok ⟨[]⟩ := by
  refine ⟨rfl, rfl, rfl, ?_, ?_⟩
  · exact (unknown_keys_ignored [("timezone", .str "Europe/Berlin")] [("klocks", .str "x")]
      rfl rfl rfl).1
  · exact (unknown_keys_ignored [("timezone", .str "Europe/Berlin")] [("klocks", .str "x")]
      rfl rfl rfl).2

end Worldclock
